import Mathlib

/-!
Verification development for the `local-llm-proxy` gateway.

The definitions below are a shallow embedding of the Python sources:
`src/proxy.py` (routes and the Anthropic messages adapter),
`src/request_handler.py` (OpenAI-path handlers, forwarding and the
streaming tool-call accumulator) and `src/oauth_manager.py` (the OAuth
credential manager).  JSON bodies are modelled by the inductive `JVal`,
runtime-generated values (uuid hex, timestamps, the upstream HTTP
outcome, the OAuth fetch outcome) are passed as explicit parameters,
and side effects relevant to the claims (credential fetches, upstream
calls) are collected in an explicit effect list.
-/

set_option autoImplicit false

namespace LlmProxy

/-- JSON values as sent on the wire (numbers restricted to integers,
which is all the embedded code paths produce or inspect). -/
inductive JVal where
  | jnull
  | jbool (b : Bool)
  | jnum (n : Int)
  | jstr (s : String)
  | jarr (l : List JVal)
  | jobj (l : List (String × JVal))

/-- Python `str.startswith`, computed on the character sequence (a
kernel-evaluable equivalent of `String.startsWith`). -/
def strStartsWith (s p : String) : Bool := p.data.isPrefixOf s.data

/-- Python `str.strip()` for whitespace, computed on the character
sequence (a kernel-evaluable equivalent of `String.trim`). -/
def strTrim (s : String) : String :=
  ⟨((s.data.dropWhile Char.isWhitespace).reverse.dropWhile Char.isWhitespace).reverse⟩

/-- Left-to-right, non-overlapping replacement on character lists; the
fuel argument (the input length) makes the recursion structural. -/
def replaceAux : Nat → List Char → List Char → List Char → List Char
  | 0, s, _, _ => s
  | _ + 1, [], _, _ => []
  | fuel + 1, c :: rest, pat, rep =>
      if pat.isPrefixOf (c :: rest) then
        rep ++ replaceAux fuel ((c :: rest).drop pat.length) pat rep
      else
        c :: replaceAux fuel rest pat rep

/-- Python `str.replace` for a non-empty pattern (the identity on an
empty pattern, like `String.replace`); kernel-evaluable equivalent of
`String.replace`. -/
def strReplace (s pat rep : String) : String :=
  if pat.data.isEmpty then s else ⟨replaceAux s.data.length s.data pat.data rep.data⟩

/-- First-match lookup in a JSON object field list (Python `dict.get`). -/
def lookupStr (l : List (String × JVal)) (k : String) : Option JVal :=
  match l with
  | [] => none
  | (k', v) :: rest => if k' = k then some v else lookupStr rest k

/-- `j.get(k)` on a JSON object; `none` for absent keys or non-objects. -/
def JVal.getKey (j : JVal) (k : String) : Option JVal :=
  match j with
  | .jobj l => lookupStr l k
  | _ => none

/-- Build the OpenAI-style error envelope `{"error": {...fields}}`. -/
def errObj (fields : List (String × JVal)) : JVal :=
  .jobj [("error", .jobj fields)]

/-- Build the Anthropic-style error envelope
`{"type": "error", "error": {"type": ty, "message": msg}}`
(src/proxy.py lines 280-286 and 359-365). -/
def anthErrObj (ty msg : String) : JVal :=
  .jobj [("type", .jstr "error"),
         ("error", .jobj [("type", .jstr ty), ("message", .jstr msg)])]

/-- Side effects of handling one inbound request that the claims talk
about: a credential fetch (OAuthManager.get_token) and an upstream call. -/
inductive Effect where
  | credentialFetch
  | upstreamCall
deriving DecidableEq

/-- A chat message as constructed by the adapters (`{"role": .., "content": ..}`). -/
structure ChatMsg where
  role : String
  content : String
deriving DecidableEq

/-- An OpenAI-style chat/completions request body, with `none` marking an
absent key (src/request_handler.py accesses these keys with `.get`). -/
structure ChatRequest where
  model : Option String := none
  messages : Option (List ChatMsg) := none
  max_tokens : Option Nat := none
  temperature : Option ℚ := none
  top_p : Option ℚ := none
  stream : Option Bool := none
  stop : Option (List String) := none
deriving DecidableEq

/-- Gateway configuration (src/config.py `Config.__init__`), plus the
fields referenced by the handlers.

Modelled from the spec: `strip_zero_temperature`, `max_tokens` and the
model-alias table backing `map_model_name` are referenced by
`src/request_handler.py` / `src/proxy.py` but their declarations are
missing from `src/config.py`; following the spec's configuration surface
("default model and default max-output-tokens; model alias table for
Anthropic model names; toggle for stripping zero temperature") they are
modelled as an always-configured default (every `Config` field in the
source carries an environment default), a boolean toggle, and an alias
table consulted by `map_model_name`. -/
structure ProxyConfig where
  proxy_access_token : String
  use_placeholder_mode : Bool := false
  default_model : String := "gpt-4"
  default_small_model : String := "gpt-3.5-turbo"
  available_models : List String := []
  dev_mode : Bool := false
  oauth_configured : Bool := false
  strip_zero_temperature : Bool := false
  max_tokens : Nat := 16384
  model_aliases : List (String × String) := []
deriving DecidableEq

/-- Modelled from the spec: `Config.map_model_name` (called at
src/proxy.py line 273, absent from src/config.py) resolves a model name
through the external model-alias table, leaving unknown names unchanged. -/
def map_model_name (cfg : ProxyConfig) (m : String) : String :=
  ((cfg.model_aliases.lookup m).getD m)

/-- Values that exist only at run time (fresh uuid hex, wall-clock
timestamp); passed explicitly so the handlers stay pure. -/
structure RuntimeEnv where
  uuidHex : String := ""
  created : Int := 0

/-- Outcome of one upstream HTTP POST, as seen by the forwarding code:
either a transport-level exception, or a response with status code,
JSON-parse result (`none` = body not parseable as JSON) and raw text. -/
inductive UpstreamOutcome where
  | netError (msg : String)
  | httpResponse (status : Nat) (json : Option JVal) (text : String)

/-- `response.ok` in `requests`: true exactly when the status is < 400. -/
def okStatus (s : Nat) : Bool := s < 400

/-- A response body: a JSON document, or a streamed (SSE) response whose
bytes are produced incrementally. -/
inductive RBody where
  | json (j : JVal)
  | streamed

/-- The result of handling a request: HTTP status, body, and the effect
trace (credential fetches / upstream calls performed for this request). -/
structure HttpResult where
  status : Nat
  body : RBody
  effects : List Effect

/-- `verify_access_token` (src/proxy.py lines 160-172): checks the
`Authorization` header against the gateway secret, returning the error
envelope on failure and `none` on success.  An absent header reads as
`""` (`request.headers.get('Authorization', '')`). -/
def verify_access_token (cfg : ProxyConfig) (auth : Option String) : Option JVal :=
  if ¬ strStartsWith (auth.getD "") "Bearer " then
    some (errObj [("message", .jstr "Missing or invalid Authorization header"),
                  ("type", .jstr "invalid_request_error")])
  else if (auth.getD "").drop 7 ≠ cfg.proxy_access_token then
    some (errObj [("message", .jstr "Invalid access token"),
                  ("type", .jstr "invalid_request_error")])
  else
    none

/-- Authorization effects of `_add_authorization_header`
(src/request_handler.py lines 441-466): dev mode uses a mock token, else
an OAuth manager (a credential fetch) if present, else a static key. -/
def authEffects (cfg : ProxyConfig) : List Effect :=
  if cfg.dev_mode then [] else if cfg.oauth_configured then [.credentialFetch] else []

/-- Python truthiness of `request_data.get('model')`: absent or `""`. -/
def falsyModel : Option String → Bool
  | none => true
  | some s => s = ""

/-- Python truthiness of `request_data.get('messages')`: absent or `[]`. -/
def falsyMessages : Option (List ChatMsg) → Bool
  | none => true
  | some l => l.isEmpty

/-- The `{"error": {... "you must provide a model parameter" ...}}` body
(src/request_handler.py lines 82-89 and 120-127). -/
def chatModelMissingBody : JVal :=
  errObj [("message", .jstr "you must provide a model parameter"),
          ("type", .jstr "invalid_request_error"),
          ("param", .jstr "model"),
          ("code", .jnull)]

/-- The `{"error": {... "you must provide a messages parameter" ...}}`
body (src/request_handler.py lines 95-101). -/
def chatMessagesMissingBody : JVal :=
  errObj [("message", .jstr "you must provide a messages parameter"),
          ("type", .jstr "invalid_request_error"),
          ("param", .jstr "messages"),
          ("code", .jnull)]

/-- First normalization of `RequestHandler.chat_completions`
(src/request_handler.py lines 67-72): strip a `temperature == 0` field
when the policy toggle is on. -/
def strip_zero_temp (cfg : ProxyConfig) (req : ChatRequest) : ChatRequest :=
  if cfg.strip_zero_temperature ∧ req.temperature = some 0 then
    { req with temperature := none }
  else req

/-- Second normalization (src/request_handler.py lines 74-78): inject
the configured default `max_tokens` when the request omits it. -/
def inject_max_tokens (cfg : ProxyConfig) (req : ChatRequest) : ChatRequest :=
  if req.max_tokens = none then { req with max_tokens := some cfg.max_tokens } else req

/-- The two normalizations applied at the top of
`RequestHandler.chat_completions` (src/request_handler.py lines 67-78),
in source order. -/
def normalize_chat_request (cfg : ProxyConfig) (req : ChatRequest) : ChatRequest :=
  inject_max_tokens cfg (strip_zero_temp cfg req)

/-- Non-streaming placeholder chat body
(src/request_handler.py lines 553-577). -/
def placeholder_chat_body (cfg : ProxyConfig) (rt : RuntimeEnv) (req : ChatRequest) : JVal :=
  .jobj [("id", .jstr ("chatcmpl-" ++ rt.uuidHex.take 24)),
         ("object", .jstr "chat.completion"),
         ("created", .jnum rt.created),
         ("model", .jstr (req.model.getD cfg.default_model)),
         ("choices", .jarr [.jobj
            [("index", .jnum 0),
             ("message", .jobj
                [("role", .jstr "assistant"),
                 ("content", .jstr "This is a placeholder response from the local LLM proxy. Configure TARGET_ENDPOINT to connect to your actual LLM service.")]),
             ("finish_reason", .jstr "stop")]]),
         ("usage", .jobj [("prompt_tokens", .jnum 10),
                          ("completion_tokens", .jnum 20),
                          ("total_tokens", .jnum 30)])]

/-- `_placeholder_chat_response` (src/request_handler.py lines 468-577):
a synthetic streaming or non-streaming response; no upstream effects. -/
def placeholder_chat (cfg : ProxyConfig) (rt : RuntimeEnv) (req : ChatRequest) : HttpResult :=
  if req.stream.getD false then
    ⟨200, .streamed, []⟩
  else
    ⟨200, .json (placeholder_chat_body cfg rt req), []⟩

/-- Placeholder text-completion body
(src/request_handler.py lines 579-601). -/
def placeholder_completion_body (cfg : ProxyConfig) (rt : RuntimeEnv) (req : ChatRequest) : JVal :=
  .jobj [("id", .jstr ("cmpl-" ++ rt.uuidHex.take 24)),
         ("object", .jstr "text_completion"),
         ("created", .jnum rt.created),
         ("model", .jstr (req.model.getD cfg.default_small_model)),
         ("choices", .jarr [.jobj
            [("text", .jstr "This is a placeholder response."),
             ("index", .jnum 0),
             ("finish_reason", .jstr "stop")]]),
         ("usage", .jobj [("prompt_tokens", .jnum 5),
                          ("completion_tokens", .jnum 10),
                          ("total_tokens", .jnum 15)])]

/-- `_forward_chat_request` (src/request_handler.py lines 134-402),
non-logging behaviour: POST to the target, pass non-OK bodies through
(or wrap the raw text when unparseable), stream when requested, convert
an unparseable OK body into `invalid_response_error`, otherwise forward
the parsed JSON.  The connection/parse exception text is elided. -/
def forward_chat (cfg : ProxyConfig) (req : ChatRequest) (up : UpstreamOutcome) : HttpResult :=
  let fx := authEffects cfg ++ [Effect.upstreamCall]
  match up with
  | .netError m =>
      ⟨500, .json (errObj
        [("message", .jstr ("Failed to connect to target endpoint: " ++ m)),
         ("type", .jstr "connection_error"),
         ("param", .jnull),
         ("code", .jstr "target_connection_failed")]), fx⟩
  | .httpResponse s jbody rawText =>
      if ¬ okStatus s then
        match jbody with
        | some j => ⟨s, .json j, fx⟩
        | none =>
            ⟨s, .json (errObj [("message",
              .jstr (if rawText = "" then "Empty response from target" else rawText))]), fx⟩
      else if req.stream.getD false then
        ⟨200, .streamed, fx⟩
      else
        match jbody with
        | none =>
            ⟨500, .json (errObj
              [("message", .jstr "Target returned invalid JSON"),
               ("type", .jstr "invalid_response_error"),
               ("response_preview", .jstr (rawText.take 200))]), fx⟩
        | some j => ⟨200, .json j, fx⟩

/-- `RequestHandler.chat_completions` (src/request_handler.py lines
63-113): normalize, validate `model` and `messages`, then answer with
the placeholder or forward to the target.  `none` models a missing/empty
request body (both falsy in every guard of the source function). -/
def chat_completions (cfg : ProxyConfig) (rt : RuntimeEnv)
    (oreq : Option ChatRequest) (up : UpstreamOutcome) : HttpResult :=
  match oreq with
  | none => ⟨400, .json chatModelMissingBody, []⟩
  | some req0 =>
      let req := normalize_chat_request cfg req0
      if falsyModel req.model then ⟨400, .json chatModelMissingBody, []⟩
      else if falsyMessages req.messages then ⟨400, .json chatMessagesMissingBody, []⟩
      else if cfg.use_placeholder_mode then placeholder_chat cfg rt req
      else forward_chat cfg req up

/-- `_forward_completion_request` (src/request_handler.py lines 404-439):
like the chat forward but with no streaming, no default text for an
empty error body, and every exception (including JSON-parse failures)
mapped to `connection_error`. -/
def forward_completion (cfg : ProxyConfig) (_req : ChatRequest) (up : UpstreamOutcome) : HttpResult :=
  let fx := authEffects cfg ++ [Effect.upstreamCall]
  match up with
  | .netError m =>
      ⟨500, .json (errObj
        [("message", .jstr ("Failed to connect to target endpoint: " ++ m)),
         ("type", .jstr "connection_error"),
         ("param", .jnull),
         ("code", .jstr "target_connection_failed")]), fx⟩
  | .httpResponse s jbody rawText =>
      if ¬ okStatus s then
        match jbody with
        | some j => ⟨s, .json j, fx⟩
        | none => ⟨s, .json (errObj [("message", .jstr rawText)]), fx⟩
      else
        match jbody with
        | none =>
            ⟨500, .json (errObj
              [("message", .jstr "Failed to connect to target endpoint: "),
               ("type", .jstr "connection_error"),
               ("param", .jnull),
               ("code", .jstr "target_connection_failed")]), fx⟩
        | some j => ⟨200, .json j, fx⟩

/-- `RequestHandler.completions` (src/request_handler.py lines 115-132):
validates only `model` — there is no `messages` check on this path. -/
def completions (cfg : ProxyConfig) (rt : RuntimeEnv)
    (oreq : Option ChatRequest) (up : UpstreamOutcome) : HttpResult :=
  match oreq with
  | none => ⟨400, .json chatModelMissingBody, []⟩
  | some req =>
      if falsyModel req.model then ⟨400, .json chatModelMissingBody, []⟩
      else if cfg.use_placeholder_mode then
        ⟨200, .json (placeholder_completion_body cfg rt req), []⟩
      else forward_completion cfg req up

/-- The models list built in `_build_models_list`
(src/request_handler.py lines 25-38). -/
def models_list (cfg : ProxyConfig) : List JVal :=
  cfg.available_models.enum.map fun p =>
    .jobj [("id", .jstr p.2),
           ("object", .jstr "model"),
           ("created", .jnum (1687882410 + (p.1 : Int) * 1000000)),
           ("owned_by", .jstr "openai")]

/-- `RequestHandler.list_models` (src/request_handler.py lines 40-45). -/
def list_models (cfg : ProxyConfig) : HttpResult :=
  ⟨200, .json (.jobj [("object", .jstr "list"), ("data", .jarr (models_list cfg))]), []⟩

/-- `RequestHandler.get_model` (src/request_handler.py lines 47-61). -/
def get_model (cfg : ProxyConfig) (model_id : String) : HttpResult :=
  match (models_list cfg).find? (fun j =>
      match j.getKey "id" with
      | some (.jstr s) => s == model_id
      | _ => false) with
  | some m => ⟨200, .json m, []⟩
  | none =>
      ⟨404, .json (errObj
        [("message", .jstr ("Model not found: " ++ model_id)),
         ("type", .jstr "invalid_request_error"),
         ("param", .jstr "model"),
         ("code", .jstr "model_not_found")]), []⟩

/-- Route `GET /v1/models` (src/proxy.py lines 176-183). -/
def route_list_models (cfg : ProxyConfig) (auth : Option String) : HttpResult :=
  match verify_access_token cfg auth with
  | some e => ⟨401, .json e, []⟩
  | none => list_models cfg

/-- Route `GET /v1/models/{id}` (src/proxy.py lines 186-193). -/
def route_get_model (cfg : ProxyConfig) (auth : Option String) (model_id : String) : HttpResult :=
  match verify_access_token cfg auth with
  | some e => ⟨401, .json e, []⟩
  | none => get_model cfg model_id

/-- Route `POST /v1/chat/completions` (src/proxy.py lines 196-203). -/
def route_chat_completions (cfg : ProxyConfig) (rt : RuntimeEnv) (auth : Option String)
    (oreq : Option ChatRequest) (up : UpstreamOutcome) : HttpResult :=
  match verify_access_token cfg auth with
  | some e => ⟨401, .json e, []⟩
  | none => chat_completions cfg rt oreq up

/-- Route `POST /v1/completions` (src/proxy.py lines 206-213). -/
def route_completions (cfg : ProxyConfig) (rt : RuntimeEnv) (auth : Option String)
    (oreq : Option ChatRequest) (up : UpstreamOutcome) : HttpResult :=
  match verify_access_token cfg auth with
  | some e => ⟨401, .json e, []⟩
  | none => completions cfg rt oreq up

/-- A typed content block of an Anthropic request (`{"type": ..,
"text": ..}`); `none` marks an absent key. -/
structure Block where
  ty : Option String := none
  text : Option String := none
deriving DecidableEq

/-- The `system` field of an Anthropic request: a plain string or a list
of blocks (src/proxy.py lines 244-251). -/
inductive SystemField where
  | str (s : String)
  | blocks (l : List Block)
deriving DecidableEq

/-- The `content` of an Anthropic conversation message: a plain string
or a list of typed blocks (src/proxy.py lines 254-259). -/
inductive AnthContent where
  | str (s : String)
  | blocks (l : List Block)
deriving DecidableEq

/-- One Anthropic conversation message. -/
structure AnthMessage where
  role : Option String := none
  content : Option AnthContent := none
deriving DecidableEq

/-- An Anthropic `/v1/messages` request body; `none` marks absent keys. -/
structure AnthropicRequest where
  system : Option SystemField := none
  messages : List AnthMessage := []
  model : Option String := none
  max_tokens : Option Nat := none
  temperature : Option ℚ := none
  top_p : Option ℚ := none
  stream : Option Bool := none
  stop_sequences : Option (List String) := none
deriving DecidableEq

/-- System-prompt handling (src/proxy.py lines 244-251): a string becomes
one system message; a block list becomes one system message per element
that carries a `text` key. -/
def systemToMessages : Option SystemField → List ChatMsg
  | none => []
  | some (.str s) => [⟨"system", s⟩]
  | some (.blocks l) => l.filterMap fun b => b.text.map fun t => ⟨"system", t⟩

/-- Content reduction (src/proxy.py lines 255-259): a block list is
reduced to the newline-join of the `text` of its `"text"`-typed blocks;
`msg.get("content", "")` makes an absent key the empty string. -/
def reduce_content : Option AnthContent → String
  | none => ""
  | some (.str s) => s
  | some (.blocks l) =>
      String.intercalate "\n"
        (l.filterMap fun b => if b.ty = some "text" then some (b.text.getD "") else none)

/-- The message list forwarded upstream (src/proxy.py lines 241-269):
system messages first, then each conversation message whose reduced
content is not empty/whitespace-only (`not content or not content.strip()`). -/
def anth_messages_list (r : AnthropicRequest) : List ChatMsg :=
  systemToMessages r.system ++
    r.messages.filterMap fun m =>
      let c := reduce_content m.content
      if strTrim c = "" then none else some ⟨m.role.getD "user", c⟩

/-- Construction of the forwarded OpenAI request (src/proxy.py lines
271-313): the model defaults to the configured default then goes through
the alias mapping; `temperature` is forwarded only when `> 0`. -/
def anthropic_to_openai (cfg : ProxyConfig) (r : AnthropicRequest) : ChatRequest :=
  { model := some (map_model_name cfg (r.model.getD cfg.default_model)),
    messages := some (anth_messages_list r),
    max_tokens := r.max_tokens,
    temperature :=
      match r.temperature with
      | some t => if 0 < t then some t else none
      | none => none,
    top_p := r.top_p,
    stream := r.stream,
    stop := r.stop_sequences }

/-- `finish_reason` → `stop_reason` mapping with its `"end_turn"`
default (src/proxy.py lines 330-335). -/
def finish_reason_map (s : String) : String :=
  if s = "stop" then "end_turn"
  else if s = "length" then "max_tokens"
  else if s = "content_filter" then "stop_sequence"
  else "end_turn"

/-- OpenAI → Anthropic response conversion (src/proxy.py lines 323-348).
`none` models a Python exception inside the translation block (caught by
the route's catch-all); the `.get` defaults follow the source line by
line. -/
def anthropic_convert (r : AnthropicRequest) (j : JVal) : Option JVal := do
  let choicesV := (j.getKey "choices").getD (.jarr [.jobj []])
  let choice ← match choicesV with
    | .jarr (c :: _) => some c
    | _ => none
  let isObj : Bool := match choice with | .jobj _ => true | _ => false
  if ¬ isObj then none else
  let messageV := (choice.getKey "message").getD (.jobj [])
  let contentV ← match messageV with
    | .jobj _ => some ((messageV.getKey "content").getD (.jstr ""))
    | _ => none
  let stopReason := match choice.getKey "finish_reason" with
    | some (.jstr s) => finish_reason_map s
    | some _ => "end_turn"
    | none => finish_reason_map "stop"
  let idStr ← match j.getKey "id" with
    | some (.jstr s) => some (strReplace s "chatcmpl-" "msg_")
    | some _ => none
    | none => some "msg_unknown"
  let usageV := (j.getKey "usage").getD (.jobj [])
  let inTok ← match usageV with
    | .jobj _ => some ((usageV.getKey "prompt_tokens").getD (.jnum 0))
    | _ => none
  let outTok ← match usageV with
    | .jobj _ => some ((usageV.getKey "completion_tokens").getD (.jnum 0))
    | _ => none
  some (.jobj
    [("id", .jstr idStr),
     ("type", .jstr "message"),
     ("role", .jstr "assistant"),
     ("content", .jarr [.jobj [("type", .jstr "text"), ("text", contentV)]]),
     ("model", match r.model with | some m => .jstr m | none => .jnull),
     ("stop_reason", .jstr stopReason),
     ("usage", .jobj [("input_tokens", inTok), ("output_tokens", outTok)])])

/-- Route `POST /v1/messages` (src/proxy.py lines 216-367): gate, the
Anthropic → OpenAI translation, the internal chat-completions call, and
the reverse conversion; any exception becomes a 500 `api_error` in the
Anthropic envelope (its `str(e)` message is elided). -/
def anthropic_messages (cfg : ProxyConfig) (rt : RuntimeEnv) (auth : Option String)
    (oreq : Option AnthropicRequest) (up : UpstreamOutcome) : HttpResult :=
  match verify_access_token cfg auth with
  | some e => ⟨401, .json e, []⟩
  | none =>
    match oreq with
    | none => ⟨500, .json (anthErrObj "api_error" "internal error"), []⟩
    | some r =>
      let msgs := anth_messages_list r
      if msgs.isEmpty then
        ⟨400, .json (anthErrObj "invalid_request_error" "Request contained no valid messages"), []⟩
      else
        let inner := chat_completions cfg rt (some (anthropic_to_openai cfg r)) up
        if inner.status ≠ 200 then
          ⟨inner.status, inner.body, inner.effects⟩
        else
          match inner.body with
          | .streamed => ⟨500, .json (anthErrObj "api_error" "internal error"), inner.effects⟩
          | .json j =>
            match anthropic_convert r j with
            | none => ⟨500, .json (anthErrObj "api_error" "internal error"), inner.effects⟩
            | some out => ⟨200, .json out, inner.effects⟩

/-- Does the body have the OpenAI error shape `{"error": {...}}`? -/
def isOpenAIErrorShape (b : RBody) : Bool :=
  match b with
  | .json j =>
      (match j.getKey "error" with
       | some (.jobj _) => true
       | _ => false)
  | .streamed => false

/-- Does the body have the Anthropic error shape
`{"type": "error", "error": {...}}`? -/
def isAnthropicErrorShape (b : RBody) : Bool :=
  match b with
  | .json j =>
      (match j.getKey "type" with
       | some (.jstr s) => s == "error"
       | _ => false)
      &&
      (match j.getKey "error" with
       | some (.jobj _) => true
       | _ => false)
  | .streamed => false

/-- The `error.type` field of an error envelope body, when present. -/
def envelopeErrType (b : RBody) : Option String :=
  match b with
  | .json j =>
      match j.getKey "error" with
      | some e =>
          (match e.getKey "type" with
           | some (.jstr s) => some s
           | _ => none)
      | none => none
  | .streamed => none

/-- The `error.message` field of an error envelope body, when present. -/
def envelopeErrMessage (b : RBody) : Option String :=
  match b with
  | .json j =>
      match j.getKey "error" with
      | some e =>
          (match e.getKey "message" with
           | some (.jstr s) => some s
           | _ => none)
      | none => none
  | .streamed => none

/-! ### OAuthManager (src/oauth_manager.py)

The manager's mutable state, with wall-clock time (`now`) and the
outcomes of the HTTP POSTs to the token endpoint passed in explicitly.
Every public operation runs under `self._lock`, so a concurrent history
is equivalent to a sequence of these atomic steps. -/

/-- OAuth configuration relevant to the claims
(`refresh_buffer_seconds = refresh_buffer_minutes * 60`). -/
structure OAuthConfig where
  refresh_buffer_seconds : Int
deriving DecidableEq

/-- Which way the client credentials were presented on one HTTP attempt. -/
inductive AuthStyle where
  | basicAuth
  | bodyCredentials
deriving DecidableEq

/-- The parsed JSON body of a token response; `none` fields are absent
keys (`token_data.get(..)`). -/
structure TokenBody where
  access_token : Option String := none
  expires_in : Option Int := none
deriving DecidableEq

/-- Outcome of one HTTP POST to the token endpoint: an exception, or a
response with a status code and JSON-parse result (`none` = body not
parseable as JSON, so `response.json()` raises). -/
inductive HttpAttempt where
  | netError
  | response (status : Nat) (body : Option TokenBody)
deriving DecidableEq

/-- The outcomes the token endpoint would give to the (at most two)
attempts of a single `_fetch_token` call. -/
structure FetchOracle where
  first : HttpAttempt
  second : HttpAttempt
deriving DecidableEq

/-- The manager's state: stored token, absolute expiry, and the fire
time of the armed background-refresh timer, if any. -/
structure OAuthState where
  access_token : Option String := none
  expires_at : Option Int := none
  refresh_timer : Option Int := none
deriving DecidableEq

/-- The attempt whose response `_fetch_token` finally inspects: the
body-credentials retry happens exactly when the Basic-auth attempt
returned status 400 (src/oauth_manager.py lines 70-89). -/
def finalAttempt (o : FetchOracle) : HttpAttempt :=
  match o.first with
  | .response 400 _ => o.second
  | r => r

/-- The auth styles of the attempts actually issued by one fetch. -/
def attemptsOf (o : FetchOracle) : List AuthStyle :=
  match o.first with
  | .response 400 _ => [.basicAuth, .bodyCredentials]
  | _ => [.basicAuth]

/-- Does the final attempt fail (exception, non-OK status, or a body
`response.json()` cannot parse)? -/
def attemptFails : HttpAttempt → Bool
  | .netError => true
  | .response s body => ¬ okStatus s ∨ body.isNone

/-- State after one fetch attempt resolves. -/
structure FetchResult where
  state : OAuthState
  attempts : List AuthStyle
deriving DecidableEq

/-- `OAuthManager._fetch_token` (src/oauth_manager.py lines 52-117) with
`_schedule_refresh` (lines 119-135) inlined: Basic auth first, one
body-credentials retry on status 400; on success store the token,
`expires_at = now + expires_in` (default 3600) and re-arm the refresh
timer at `now + max(expires_in - buffer, 0)`; on any failure clear the
token and expiry (the `except` branch neither arms nor cancels a timer). -/
def fetch_token (cfg : OAuthConfig) (st : OAuthState) (now : Int) (o : FetchOracle) : FetchResult :=
  let attempts := attemptsOf o
  match finalAttempt o with
  | .netError => ⟨⟨none, none, st.refresh_timer⟩, attempts⟩
  | .response s body =>
    if okStatus s then
      match body with
      | none => ⟨⟨none, none, st.refresh_timer⟩, attempts⟩
      | some tb =>
          let ei := tb.expires_in.getD 3600
          ⟨⟨tb.access_token, some (now + ei),
            some (now + max (ei - cfg.refresh_buffer_seconds) 0)⟩, attempts⟩
    else ⟨⟨none, none, st.refresh_timer⟩, attempts⟩

/-- `OAuthManager._needs_refresh` (src/oauth_manager.py lines 43-50). -/
def needs_refresh (cfg : OAuthConfig) (st : OAuthState) (now : Int) : Bool :=
  match st.expires_at with
  | none => true
  | some e => e - now ≤ cfg.refresh_buffer_seconds

/-- Result of one `get_token` call. -/
structure GetResult where
  state : OAuthState
  token : Option String
  fetched : Bool
  attempts : List AuthStyle
deriving DecidableEq

/-- `OAuthManager.get_token` (src/oauth_manager.py lines 34-41): under
the lock, fetch when there is no stored token or it needs a refresh,
then return whatever token is now stored. -/
def get_token (cfg : OAuthConfig) (st : OAuthState) (now : Int) (o : FetchOracle) : GetResult :=
  if st.access_token.isNone || needs_refresh cfg st now then
    let f := fetch_token cfg st now o
    ⟨f.state, f.state.access_token, true, f.attempts⟩
  else
    ⟨st, st.access_token, false, []⟩

/-- A lock-serialized history of `get_token` calls (all at instant
`now`, e.g. N concurrent callers): returns the final state, the token
each caller received, and how many of the calls performed a fetch. -/
def run_get_tokens (cfg : OAuthConfig) (st : OAuthState) (now : Int) :
    List FetchOracle → OAuthState × List (Option String) × Nat
  | [] => (st, [], 0)
  | o :: rest =>
      let g := get_token cfg st now o
      let (st', toks, n) := run_get_tokens cfg g.state now rest
      (st', g.token :: toks, (if g.fetched then 1 else 0) + n)

/-! ### Streaming tool-call accumulator
(src/request_handler.py lines 246-274) -/

/-- One tool-call delta as it appears in a streaming chunk's
`delta.tool_calls` entry; `none` fields are absent keys. -/
structure ToolCallDelta where
  index : Option Nat := none
  id : Option String := none
  ty : Option String := none
  fname : Option String := none
  args : Option String := none
deriving DecidableEq

/-- An accumulator entry
`{'id': .., 'type': .., 'function': {'name': .., 'arguments': ..}}`. -/
structure ToolCallEntry where
  id : String
  ty : String
  name : String
  arguments : String
deriving DecidableEq

/-- Lookup in the accumulator (a Python dict keyed by call index). -/
def lookupE (acc : List (Nat × ToolCallEntry)) (i : Nat) : Option ToolCallEntry :=
  match acc with
  | [] => none
  | (j, e) :: rest => if j = i then some e else lookupE rest i

/-- Update/insert an entry under its index. -/
def updEntry (acc : List (Nat × ToolCallEntry)) (i : Nat) (e : ToolCallEntry) :
    List (Nat × ToolCallEntry) :=
  match acc with
  | [] => [(i, e)]
  | (j, x) :: rest => if j = i then (i, e) :: rest else (j, x) :: updEntry rest i e

/-- The fresh entry created on first sight of an index
(src/request_handler.py lines 253-261). -/
def initEntry (d : ToolCallDelta) : ToolCallEntry :=
  ⟨d.id.getD "", d.ty.getD "function", "", ""⟩

/-- The per-delta update (src/request_handler.py lines 263-272): `id`,
`type` and `function.name` are overwritten whenever the delta carries
them; `function.arguments` is appended to. -/
def mergeDelta (e : ToolCallEntry) (d : ToolCallDelta) : ToolCallEntry :=
  ⟨d.id.getD e.id, d.ty.getD e.ty, d.fname.getD e.name,
   e.arguments ++ d.args.getD ""⟩

/-- Processing of one tool-call delta (`tc_index = tc_delta.get('index', 0)`;
create the entry if the index is new, then apply the update). -/
def applyDelta (acc : List (Nat × ToolCallEntry)) (d : ToolCallDelta) :
    List (Nat × ToolCallEntry) :=
  let i := d.index.getD 0
  let e0 := (lookupE acc i).getD (initEntry d)
  updEntry acc i (mergeDelta e0 d)

/-- The accumulator after a whole stream of tool-call deltas, in arrival
order (`accumulated_tool_calls` at end of stream). -/
def accumulate (ds : List ToolCallDelta) : List (Nat × ToolCallEntry) :=
  ds.foldl applyDelta []

/-- The deltas addressed to call index `i`, in arrival order. -/
def deltasFor (i : Nat) (ds : List ToolCallDelta) : List ToolCallDelta :=
  ds.filter fun d => d.index.getD 0 = i

/-- Last `some` value of a projected optional field, else the default. -/
def lastSome (dflt : String) (l : List (Option String)) : String :=
  l.foldl (fun acc o => o.getD acc) dflt

/-! ### Shared lemmas -/

/-- When the `Authorization` header is absent, not of bearer form, or
carries the wrong value, `verify_access_token` produces an
`invalid_request_error` envelope. -/
theorem verify_access_token_bad (cfg : ProxyConfig) (auth : Option String)
    (h : ¬ (strStartsWith (auth.getD "") "Bearer " = true)
       ∨ (auth.getD "").drop 7 ≠ cfg.proxy_access_token) :
    ∃ m, verify_access_token cfg auth =
      some (errObj [("message", .jstr m), ("type", .jstr "invalid_request_error")]) := by
  unfold verify_access_token
  by_cases hs : strStartsWith (auth.getD "") "Bearer " = true
  · have hd : (auth.getD "").drop 7 ≠ cfg.proxy_access_token := by
      rcases h with h | h
      · exact absurd hs h
      · exact h
    refine ⟨"Invalid access token", ?_⟩
    simp [hs, hd]
  · refine ⟨"Missing or invalid Authorization header", ?_⟩
    simp [hs]

/-- Each route returns the verification envelope with 401 and an empty
effect trace as soon as the gate fails. -/
theorem routes_unauth (cfg : ProxyConfig) (rt : RuntimeEnv) (auth : Option String)
    (mid : String) (oreq oreq2 : Option ChatRequest) (areq : Option AnthropicRequest)
    (up up2 up3 : UpstreamOutcome) (e : JVal)
    (hm : verify_access_token cfg auth = some e) :
    route_list_models cfg auth = ⟨401, .json e, []⟩
    ∧ route_get_model cfg auth mid = ⟨401, .json e, []⟩
    ∧ route_chat_completions cfg rt auth oreq up = ⟨401, .json e, []⟩
    ∧ route_completions cfg rt auth oreq2 up2 = ⟨401, .json e, []⟩
    ∧ anthropic_messages cfg rt auth areq up3 = ⟨401, .json e, []⟩ := by
  unfold route_list_models route_get_model route_chat_completions route_completions
    anthropic_messages
  rw [hm]
  exact ⟨rfl, rfl, rfl, rfl, rfl⟩

/-- The error type of a two-field verification envelope. -/
theorem envelopeErrType_verify (m : String) :
    envelopeErrType (.json (errObj
      [("message", .jstr m), ("type", .jstr "invalid_request_error")]))
      = some "invalid_request_error" := by
  simp [envelopeErrType, errObj, JVal.getKey, lookupStr]

/-- Normalization touches only `temperature` and `max_tokens`. -/
theorem normalize_chat_request_model (cfg : ProxyConfig) (req : ChatRequest) :
    (normalize_chat_request cfg req).model = req.model
    ∧ (normalize_chat_request cfg req).messages = req.messages
    ∧ (normalize_chat_request cfg req).stream = req.stream := by
  unfold normalize_chat_request inject_max_tokens strip_zero_temp
  split <;> split <;> simp_all

/-! ### Claim C1 -/

/-- Claim C1: for every inbound request to a bearer-secured endpoint
(`/v1/models`, `/v1/models/{id}`, `/v1/chat/completions`,
`/v1/completions`, `/v1/messages`) whose `Authorization` header is
absent, not of the bearer form, or carries a value different from the
gateway secret, the gateway responds with HTTP 401 and an
`invalid_request_error` envelope, and no credential fetch and no
upstream call occurs for that request. -/
theorem accessGate_rejects_first (cfg : ProxyConfig) (rt : RuntimeEnv)
    (auth : Option String) (mid : String) (oreq oreq2 : Option ChatRequest)
    (areq : Option AnthropicRequest) (up up2 up3 : UpstreamOutcome)
    (h : ¬ (strStartsWith (auth.getD "") "Bearer " = true)
       ∨ (auth.getD "").drop 7 ≠ cfg.proxy_access_token) :
    ((route_list_models cfg auth).status = 401
      ∧ envelopeErrType (route_list_models cfg auth).body = some "invalid_request_error"
      ∧ (route_list_models cfg auth).effects = [])
    ∧ ((route_get_model cfg auth mid).status = 401
      ∧ envelopeErrType (route_get_model cfg auth mid).body = some "invalid_request_error"
      ∧ (route_get_model cfg auth mid).effects = [])
    ∧ ((route_chat_completions cfg rt auth oreq up).status = 401
      ∧ envelopeErrType (route_chat_completions cfg rt auth oreq up).body
          = some "invalid_request_error"
      ∧ (route_chat_completions cfg rt auth oreq up).effects = [])
    ∧ ((route_completions cfg rt auth oreq2 up2).status = 401
      ∧ envelopeErrType (route_completions cfg rt auth oreq2 up2).body
          = some "invalid_request_error"
      ∧ (route_completions cfg rt auth oreq2 up2).effects = [])
    ∧ ((anthropic_messages cfg rt auth areq up3).status = 401
      ∧ envelopeErrType (anthropic_messages cfg rt auth areq up3).body
          = some "invalid_request_error"
      ∧ (anthropic_messages cfg rt auth areq up3).effects = []) := by
  obtain ⟨m, hm⟩ := verify_access_token_bad cfg auth h
  obtain ⟨h1, h2, h3, h4, h5⟩ :=
    routes_unauth cfg rt auth mid oreq oreq2 areq up up2 up3 _ hm
  rw [h1, h2, h3, h4, h5]
  refine ⟨⟨rfl, ?_, rfl⟩, ⟨rfl, ?_, rfl⟩, ⟨rfl, ?_, rfl⟩, ⟨rfl, ?_, rfl⟩, ⟨rfl, ?_, rfl⟩⟩ <;>
    exact envelopeErrType_verify m

/-- Witness for C1 at a concrete config and a wrong bearer value. -/
theorem accessGate_rejects_first_witness :
    ((route_list_models { proxy_access_token := "s3cret" } (some "Bearer wrong")).status = 401
      ∧ envelopeErrType (route_list_models { proxy_access_token := "s3cret" }
          (some "Bearer wrong")).body = some "invalid_request_error"
      ∧ (route_list_models { proxy_access_token := "s3cret" } (some "Bearer wrong")).effects = [])
    ∧ ((route_get_model { proxy_access_token := "s3cret" } (some "Bearer wrong") "gpt-4").status = 401
      ∧ envelopeErrType (route_get_model { proxy_access_token := "s3cret" }
          (some "Bearer wrong") "gpt-4").body = some "invalid_request_error"
      ∧ (route_get_model { proxy_access_token := "s3cret" }
          (some "Bearer wrong") "gpt-4").effects = [])
    ∧ ((route_chat_completions { proxy_access_token := "s3cret" } ⟨"", 0⟩
          (some "Bearer wrong") none (.netError "x")).status = 401
      ∧ envelopeErrType (route_chat_completions { proxy_access_token := "s3cret" } ⟨"", 0⟩
          (some "Bearer wrong") none (.netError "x")).body = some "invalid_request_error"
      ∧ (route_chat_completions { proxy_access_token := "s3cret" } ⟨"", 0⟩
          (some "Bearer wrong") none (.netError "x")).effects = [])
    ∧ ((route_completions { proxy_access_token := "s3cret" } ⟨"", 0⟩
          (some "Bearer wrong") none (.netError "x")).status = 401
      ∧ envelopeErrType (route_completions { proxy_access_token := "s3cret" } ⟨"", 0⟩
          (some "Bearer wrong") none (.netError "x")).body = some "invalid_request_error"
      ∧ (route_completions { proxy_access_token := "s3cret" } ⟨"", 0⟩
          (some "Bearer wrong") none (.netError "x")).effects = [])
    ∧ ((anthropic_messages { proxy_access_token := "s3cret" } ⟨"", 0⟩
          (some "Bearer wrong") none (.netError "x")).status = 401
      ∧ envelopeErrType (anthropic_messages { proxy_access_token := "s3cret" } ⟨"", 0⟩
          (some "Bearer wrong") none (.netError "x")).body = some "invalid_request_error"
      ∧ (anthropic_messages { proxy_access_token := "s3cret" } ⟨"", 0⟩
          (some "Bearer wrong") none (.netError "x")).effects = []) :=
  accessGate_rejects_first { proxy_access_token := "s3cret" } ⟨"", 0⟩
    (some "Bearer wrong") "gpt-4" none none none (.netError "x") (.netError "x") (.netError "x")
    (Or.inr (by decide))

/-! ### Claim C5 -/

/-- Claim C5 (amended): a `/v1/chat/completions` body missing `model` or
missing `messages` is rejected with 400 and an `invalid_request_error`
envelope with no upstream work; on `/v1/completions` only a missing
`model` is rejected that way — that handler performs no `messages`
validation at all. -/
theorem missing_fields_rejected (cfg : ProxyConfig) (rt : RuntimeEnv)
    (req : ChatRequest) (up up2 : UpstreamOutcome) :
    (falsyModel req.model = true ∨ falsyMessages req.messages = true →
      (chat_completions cfg rt (some req) up).status = 400
      ∧ envelopeErrType (chat_completions cfg rt (some req) up).body
          = some "invalid_request_error"
      ∧ (chat_completions cfg rt (some req) up).effects = [])
    ∧ (falsyModel req.model = true →
      (completions cfg rt (some req) up2).status = 400
      ∧ envelopeErrType (completions cfg rt (some req) up2).body
          = some "invalid_request_error"
      ∧ (completions cfg rt (some req) up2).effects = []) := by
  obtain ⟨hmod, hmsg, _⟩ := normalize_chat_request_model cfg req
  constructor
  · intro h
    by_cases hm : falsyModel req.model = true
    · simp [chat_completions, hmod, hm, envelopeErrType, chatModelMissingBody, errObj,
            JVal.getKey, lookupStr]
    · have hms : falsyMessages req.messages = true := by
        rcases h with h | h
        · exact absurd h hm
        · exact h
      simp [chat_completions, hmod, hmsg, hm, hms, envelopeErrType, chatMessagesMissingBody,
            errObj, JVal.getKey, lookupStr]
  · intro hm
    simp [completions, hm, envelopeErrType, chatModelMissingBody, errObj, JVal.getKey, lookupStr]

/-- Witness for C5 (amended): a body missing both fields is rejected on
both POST handlers. -/
theorem missing_fields_rejected_witness :
    ((chat_completions { proxy_access_token := "s" } ⟨"", 0⟩
        (some {}) (.netError "x")).status = 400
      ∧ envelopeErrType (chat_completions { proxy_access_token := "s" } ⟨"", 0⟩
          (some {}) (.netError "x")).body = some "invalid_request_error"
      ∧ (chat_completions { proxy_access_token := "s" } ⟨"", 0⟩
          (some {}) (.netError "x")).effects = [])
    ∧ ((completions { proxy_access_token := "s" } ⟨"", 0⟩
        (some {}) (.netError "x")).status = 400
      ∧ envelopeErrType (completions { proxy_access_token := "s" } ⟨"", 0⟩
          (some {}) (.netError "x")).body = some "invalid_request_error"
      ∧ (completions { proxy_access_token := "s" } ⟨"", 0⟩
          (some {}) (.netError "x")).effects = []) :=
  ⟨(missing_fields_rejected { proxy_access_token := "s" } ⟨"", 0⟩ {}
      (.netError "x") (.netError "x")).1 (Or.inl (by decide)),
   (missing_fields_rejected { proxy_access_token := "s" } ⟨"", 0⟩ {}
      (.netError "x") (.netError "x")).2 (by decide)⟩

/-- Counterexample for C5 as stated: a `/v1/completions` request with a
`model` but no `messages` is not rejected — it is forwarded upstream and
answered 200. -/
theorem missing_messages_not_rejected_on_completions :
    (route_completions { proxy_access_token := "s" } ⟨"", 0⟩ (some "Bearer s")
        (some { model := some "gpt-4" }) (.httpResponse 200 (some (.jobj [])) "{}")).status = 200
    ∧ Effect.upstreamCall ∈ (route_completions { proxy_access_token := "s" } ⟨"", 0⟩
        (some "Bearer s") (some { model := some "gpt-4" })
        (.httpResponse 200 (some (.jobj [])) "{}")).effects := by
  decide

/-! ### Claim C7 -/

/-- Claim C7: on the OpenAI-passthrough path, the default
max-output-tokens is injected exactly when the request omits
`max_tokens`; when the strip-zero-temperature policy is enabled a
`temperature == 0` field is removed, and otherwise `temperature` is
unchanged. -/
theorem passthrough_normalizations (cfg : ProxyConfig) (req : ChatRequest) :
    ((req.max_tokens = none →
        (normalize_chat_request cfg req).max_tokens = some cfg.max_tokens)
      ∧ (∀ v, req.max_tokens = some v →
        (normalize_chat_request cfg req).max_tokens = some v))
    ∧ ((cfg.strip_zero_temperature = true → req.temperature = some 0 →
        (normalize_chat_request cfg req).temperature = none)
      ∧ (cfg.strip_zero_temperature = false ∨ req.temperature ≠ some 0 →
        (normalize_chat_request cfg req).temperature = req.temperature)) := by
  have hstripT : (strip_zero_temp cfg req).max_tokens = req.max_tokens := by
    unfold strip_zero_temp
    split <;> rfl
  have hinjT : ∀ r : ChatRequest, (inject_max_tokens cfg r).temperature = r.temperature := by
    intro r
    unfold inject_max_tokens
    split <;> rfl
  refine ⟨⟨?_, ?_⟩, ?_, ?_⟩
  · intro h
    unfold normalize_chat_request inject_max_tokens
    simp [hstripT, h]
  · intro v hv
    unfold normalize_chat_request inject_max_tokens
    simp [hstripT, hv]
  · intro hs ht
    unfold normalize_chat_request
    rw [hinjT]
    unfold strip_zero_temp
    simp [hs, ht]
  · intro h
    unfold normalize_chat_request
    rw [hinjT]
    unfold strip_zero_temp
    have hcond : ¬ (cfg.strip_zero_temperature = true ∧ req.temperature = some 0) := by
      rcases h with h | h <;> simp_all
    rw [if_neg hcond]

/-- Witness for C7: injection on an omitted `max_tokens` and stripping
of a zero temperature at a concrete config and request. -/
theorem passthrough_normalizations_witness :
    (normalize_chat_request { proxy_access_token := "s", strip_zero_temperature := true }
        { temperature := some 0 }).max_tokens = some 16384
    ∧ (normalize_chat_request { proxy_access_token := "s", strip_zero_temperature := true }
        { temperature := some 0 }).temperature = none :=
  ⟨(passthrough_normalizations { proxy_access_token := "s", strip_zero_temperature := true }
      { temperature := some 0 }).1.1 rfl,
   (passthrough_normalizations { proxy_access_token := "s", strip_zero_temperature := true }
      { temperature := some 0 }).2.1 rfl rfl⟩

/-! ### Claims C2, C3, C4 (OAuthManager) -/

/-- A fetch performs exactly the attempts prescribed by the oracle,
whatever the outcome. -/
theorem fetch_token_attempts (cfg : OAuthConfig) (st : OAuthState) (now : Int)
    (o : FetchOracle) : (fetch_token cfg st now o).attempts = attemptsOf o := by
  unfold fetch_token
  split
  · rfl
  · split
    · split <;> rfl
    · rfl

/-- When the stored token is absent or needs a refresh, `get_token`
fetches and returns the freshly stored token. -/
theorem get_token_fetch_path (cfg : OAuthConfig) (st : OAuthState) (now : Int)
    (o : FetchOracle)
    (h : (st.access_token.isNone || needs_refresh cfg st now) = true) :
    get_token cfg st now o =
      ⟨(fetch_token cfg st now o).state, (fetch_token cfg st now o).state.access_token,
       true, (fetch_token cfg st now o).attempts⟩ := by
  unfold get_token
  rw [if_pos h]

/-- When the stored token is present and fresh, `get_token` answers
without fetching. -/
theorem get_token_fast_path (cfg : OAuthConfig) (st : OAuthState) (now : Int)
    (o : FetchOracle)
    (h : ¬ ((st.access_token.isNone || needs_refresh cfg st now) = true)) :
    get_token cfg st now o = ⟨st, st.access_token, false, []⟩ := by
  unfold get_token
  rw [if_neg h]

/-- Claim C2 (amended): a token returned without a fetch has
time-to-expiry strictly greater than the refresh buffer; when a fetch
occurs, a failed fetch makes `get_token` return `Unavailable` (`None`),
while a successful fetch returns exactly the fetched token with expiry
`now + expires_in` — which may lie within the buffer, since the fetched
token is returned without a second freshness check. -/
theorem getCredential_expiry (cfg : OAuthConfig) (st : OAuthState) (now : Int)
    (o : FetchOracle) :
    ((get_token cfg st now o).fetched = false →
      (get_token cfg st now o).token = st.access_token
      ∧ st.access_token.isSome = true
      ∧ ∃ e, st.expires_at = some e ∧ cfg.refresh_buffer_seconds < e - now)
    ∧ ((get_token cfg st now o).fetched = true →
      (attemptFails (finalAttempt o) = true → (get_token cfg st now o).token = none)
      ∧ (∀ s tb, finalAttempt o = .response s (some tb) → okStatus s = true →
          (get_token cfg st now o).token = tb.access_token
          ∧ (get_token cfg st now o).state.expires_at
              = some (now + tb.expires_in.getD 3600))) := by
  by_cases hg : (st.access_token.isNone || needs_refresh cfg st now) = true
  · rw [get_token_fetch_path cfg st now o hg]
    refine ⟨fun hc => by simp at hc, fun _ => ⟨?_, ?_⟩⟩
    · intro hf
      unfold fetch_token
      cases hA : finalAttempt o with
      | netError => rfl
      | response s body =>
          rw [hA] at hf
          by_cases hok : okStatus s = true
          · cases body with
            | none => simp [hok]
            | some tb => simp [attemptFails, hok] at hf
          · simp [hok]
    · intro s tb hA hok
      unfold fetch_token
      rw [hA]
      simp [hok]
  · rw [get_token_fast_path cfg st now o hg]
    refine ⟨fun _ => ⟨rfl, ?_, ?_⟩, fun hc => by simp at hc⟩
    · cases hT : st.access_token with
      | none => simp [hT] at hg
      | some t => rfl
    · cases hE : st.expires_at with
      | none => simp [needs_refresh, hE] at hg
      | some e =>
          refine ⟨e, rfl, ?_⟩
          by_contra hle
          exact hg (by simp [needs_refresh, hE]; omega)

/-- Witness for C2 (amended): a stored fresh token is returned as-is on
the fast path. -/
theorem getCredential_expiry_witness :
    (get_token ⟨300⟩ ⟨some "t0", some 1000, none⟩ 0 ⟨.netError, .netError⟩).token = some "t0"
    ∧ (some "t0" : Option String).isSome = true
    ∧ ∃ e, (some 1000 : Option Int) = some e ∧ (300 : Int) < e - 0 :=
  (getCredential_expiry ⟨300⟩ ⟨some "t0", some 1000, none⟩ 0 ⟨.netError, .netError⟩).1
    (by decide)

/-- Counterexample for C2 as stated: a fetch that succeeds with
`expires_in = 60` against a 300-second buffer hands out a token whose
time-to-expiry (60) is not greater than the buffer. -/
theorem getCredential_within_buffer_counterexample :
    (get_token ⟨300⟩ {} 0
        ⟨.response 200 (some ⟨some "tk", some 60⟩), .netError⟩).token = some "tk"
    ∧ (get_token ⟨300⟩ {} 0
        ⟨.response 200 (some ⟨some "tk", some 60⟩), .netError⟩).state.expires_at = some 60
    ∧ ¬ ((300 : Int) < 60 - 0) := by
  decide

/-- After a successful fetch left a fresh token, later serialized calls
never fetch and all return that token. -/
theorem run_no_fetch (cfg : OAuthConfig) (now : Int) (t : String) (e : Int)
    (tm : Option Int) (hbuf : ¬ (e - now ≤ cfg.refresh_buffer_seconds)) :
    ∀ rest : List FetchOracle,
      run_get_tokens cfg ⟨some t, some e, tm⟩ now rest
        = (⟨some t, some e, tm⟩, List.replicate rest.length (some t), 0) := by
  intro rest
  induction rest with
  | nil => rfl
  | cons o rest ih =>
      have hg : get_token cfg ⟨some t, some e, tm⟩ now o
          = ⟨⟨some t, some e, tm⟩, some t, false, []⟩ := by
        apply get_token_fast_path
        simp [needs_refresh, hbuf]
      unfold run_get_tokens
      rw [hg]
      dsimp only
      rw [ih]
      simp [List.replicate_succ]

/-- Claim C3 (amended): serialized under the manager's lock, N calls to
`get_token` from a token-less state perform exactly one upstream fetch
and all receive that fetch's token — provided the single fetch succeeds
with `expires_in` beyond the refresh buffer.  (When the fetch fails,
each subsequent caller retries, per the counterexample.) -/
theorem singleFlight_on_success (cfg : OAuthConfig) (st : OAuthState) (now : Int)
    (o : FetchOracle) (rest : List FetchOracle) (s : Nat) (t : String) (ei : Int)
    (h0 : st.access_token = none)
    (hfa : finalAttempt o = .response s (some ⟨some t, some ei⟩))
    (hok : okStatus s = true)
    (hei : cfg.refresh_buffer_seconds < ei) :
    (run_get_tokens cfg st now (o :: rest)).2.2 = 1
    ∧ (run_get_tokens cfg st now (o :: rest)).2.1
        = List.replicate (rest.length + 1) (some t) := by
  have hfetch : fetch_token cfg st now o =
      ⟨⟨some t, some (now + ei), some (now + max (ei - cfg.refresh_buffer_seconds) 0)⟩,
       attemptsOf o⟩ := by
    unfold fetch_token
    rw [hfa]
    simp [hok]
  have hg : get_token cfg st now o =
      ⟨⟨some t, some (now + ei), some (now + max (ei - cfg.refresh_buffer_seconds) 0)⟩,
       some t, true, attemptsOf o⟩ := by
    rw [get_token_fetch_path cfg st now o (by simp [h0]), hfetch]
  have hrest := run_no_fetch cfg now t (now + ei)
    (some (now + max (ei - cfg.refresh_buffer_seconds) 0)) (by omega) rest
  unfold run_get_tokens
  rw [hg]
  dsimp only
  rw [hrest]
  simp [List.replicate_succ]

/-- Witness for C3 (amended): three serialized callers, one successful
fetch, one fetch total, all get the same token. -/
theorem singleFlight_on_success_witness :
    (run_get_tokens ⟨300⟩ {} 0
        [⟨.response 200 (some ⟨some "tk", some 3600⟩), .netError⟩,
         ⟨.netError, .netError⟩, ⟨.netError, .netError⟩]).2.2 = 1
    ∧ (run_get_tokens ⟨300⟩ {} 0
        [⟨.response 200 (some ⟨some "tk", some 3600⟩), .netError⟩,
         ⟨.netError, .netError⟩, ⟨.netError, .netError⟩]).2.1
        = List.replicate 3 (some "tk") :=
  singleFlight_on_success ⟨300⟩ {} 0
    ⟨.response 200 (some ⟨some "tk", some 3600⟩), .netError⟩
    [⟨.netError, .netError⟩, ⟨.netError, .netError⟩] 200 "tk" 3600
    rfl rfl (by decide) (by decide)

/-- Counterexample for C3 as stated: two serialized callers with no
stored token and a failing token endpoint issue two fetches, not one —
each caller retries the failed fetch. -/
theorem singleFlight_counterexample :
    (run_get_tokens ⟨300⟩ {} 0
        [⟨.netError, .netError⟩, ⟨.netError, .netError⟩]).2.2 = 2
    ∧ ¬ (run_get_tokens ⟨300⟩ {} 0
        [⟨.netError, .netError⟩, ⟨.netError, .netError⟩]).2.2 = 1 := by
  decide

/-- Claim C4 (amended): a fetch issues at most two HTTP attempts, the
first with Basic auth; the body-credentials retry happens exactly when
the Basic attempt returned status 400; on failure of the final attempt
(network error, non-OK status ≥ 400, or a body `response.json()` cannot
parse) the stored token and expiry are cleared, the failure is reported
through the cleared state, and the failing fetch arms no new refresh
timer (the timer field is left as it was).  A final status in the
redirect range (< 400) is treated as success, `response.ok` being
`status < 400`. -/
theorem fetch_token_discipline (cfg : OAuthConfig) (st : OAuthState) (now : Int)
    (o : FetchOracle) :
    (fetch_token cfg st now o).attempts.length ≤ 2
    ∧ (fetch_token cfg st now o).attempts.head? = some .basicAuth
    ∧ ((fetch_token cfg st now o).attempts = [.basicAuth, .bodyCredentials]
        ↔ ∃ b, o.first = .response 400 b)
    ∧ (attemptFails (finalAttempt o) = true →
        (fetch_token cfg st now o).state.access_token = none
        ∧ (fetch_token cfg st now o).state.expires_at = none
        ∧ (fetch_token cfg st now o).state.refresh_timer = st.refresh_timer) := by
  rw [fetch_token_attempts]
  refine ⟨?_, ?_, ?_, ?_⟩
  · unfold attemptsOf
    split <;> simp
  · unfold attemptsOf
    split <;> rfl
  · unfold attemptsOf
    constructor
    · intro h
      split at h
      · next b _ => exact ⟨b, by assumption⟩
      · simp at h
    · rintro ⟨b, hb⟩
      rw [hb]
  · intro hf
    unfold fetch_token
    cases hA : finalAttempt o with
    | netError => exact ⟨rfl, rfl, rfl⟩
    | response s body =>
        rw [hA] at hf
        by_cases hok : okStatus s = true
        · cases body with
          | none => simp [hok]
          | some tb => simp [attemptFails, hok] at hf
        · simp [hok]

/-- Witness for C4 (amended): a 400 on the Basic attempt triggers the
single body-credentials retry, and the failing retry clears the state
without touching the timer. -/
theorem fetch_token_discipline_witness :
    (fetch_token ⟨300⟩ ⟨some "old", some 9999, some 7⟩ 0
        ⟨.response 400 none, .netError⟩).attempts = [.basicAuth, .bodyCredentials]
    ∧ (fetch_token ⟨300⟩ ⟨some "old", some 9999, some 7⟩ 0
        ⟨.response 400 none, .netError⟩).state.access_token = none
    ∧ (fetch_token ⟨300⟩ ⟨some "old", some 9999, some 7⟩ 0
        ⟨.response 400 none, .netError⟩).state.expires_at = none
    ∧ (fetch_token ⟨300⟩ ⟨some "old", some 9999, some 7⟩ 0
        ⟨.response 400 none, .netError⟩).state.refresh_timer = some 7 :=
  ⟨(fetch_token_discipline ⟨300⟩ ⟨some "old", some 9999, some 7⟩ 0
      ⟨.response 400 none, .netError⟩).2.2.1.mpr ⟨none, rfl⟩,
   (fetch_token_discipline ⟨300⟩ ⟨some "old", some 9999, some 7⟩ 0
      ⟨.response 400 none, .netError⟩).2.2.2 (by decide)⟩

/-- Counterexample for C4 as stated: a final status 302 — not 2xx — with
a parseable token body is accepted by the code (`response.ok` is
`status < 400`): the token is stored, not cleared, and no failure is
reported. -/
theorem fetch_302_counterexample :
    (fetch_token ⟨300⟩ ⟨some "old", some 50, none⟩ 0
        ⟨.response 302 (some ⟨some "tk", some 100⟩), .netError⟩).state.access_token
      = some "tk"
    ∧ ¬ (fetch_token ⟨300⟩ ⟨some "old", some 50, none⟩ 0
        ⟨.response 302 (some ⟨some "tk", some 100⟩), .netError⟩).state.access_token
      = none
    ∧ (fetch_token ⟨300⟩ ⟨some "old", some 50, none⟩ 0
        ⟨.response 302 (some ⟨some "tk", some 100⟩), .netError⟩).state.expires_at
      = some 100 := by
  decide

/-! ### Claim C8 (tool-call accumulator) -/

/-- Concatenation of argument fragments in arrival order. -/
def concatFragments (l : List String) : String := l.foldr (· ++ ·) ""

/-- Folding the per-delta merge over a run of deltas for one index. -/
def mergeRun (oe : Option ToolCallEntry) (ds : List ToolCallDelta) : Option ToolCallEntry :=
  ds.foldl (fun oe d => some (mergeDelta (oe.getD (initEntry d)) d)) oe

theorem strAppend_empty (s : String) : s ++ "" = s := by
  cases s with
  | mk data => show String.mk (data ++ []) = String.mk data
               rw [List.append_nil]

theorem strAppend_assoc (a b c : String) : a ++ b ++ c = a ++ (b ++ c) := by
  cases a with
  | mk da =>
    cases b with
    | mk db =>
      cases c with
      | mk dc => show String.mk (da ++ db ++ dc) = String.mk (da ++ (db ++ dc))
                 rw [List.append_assoc]

theorem lookupE_updEntry_self (acc : List (Nat × ToolCallEntry)) (i : Nat)
    (e : ToolCallEntry) : lookupE (updEntry acc i e) i = some e := by
  induction acc with
  | nil => simp [updEntry, lookupE]
  | cons p rest ih =>
      obtain ⟨j, x⟩ := p
      unfold updEntry
      by_cases h : j = i
      · simp [h, lookupE]
      · simp [h, lookupE, ih]

theorem lookupE_updEntry_other (acc : List (Nat × ToolCallEntry)) (i j : Nat)
    (e : ToolCallEntry) (hne : j ≠ i) :
    lookupE (updEntry acc i e) j = lookupE acc j := by
  have hij : ¬ i = j := fun hh => hne hh.symm
  induction acc with
  | nil => simp [updEntry, lookupE, hij]
  | cons p rest ih =>
      obtain ⟨k, x⟩ := p
      unfold updEntry
      by_cases h : k = i
      · subst h
        simp [lookupE, hij]
      · simp [h, lookupE, ih]

theorem applyDelta_lookup (acc : List (Nat × ToolCallEntry)) (d : ToolCallDelta)
    (i : Nat) :
    lookupE (applyDelta acc d) i =
      if d.index.getD 0 = i then
        some (mergeDelta ((lookupE acc i).getD (initEntry d)) d)
      else lookupE acc i := by
  unfold applyDelta
  by_cases h : d.index.getD 0 = i
  · rw [if_pos h, h, lookupE_updEntry_self]
  · rw [if_neg h, lookupE_updEntry_other]
    exact fun he => h he.symm

/-- The accumulator's entry for index `i` is exactly the merge of the
deltas addressed to `i`, in arrival order. -/
theorem foldl_applyDelta_lookup (ds : List ToolCallDelta)
    (acc : List (Nat × ToolCallEntry)) (i : Nat) :
    lookupE (ds.foldl applyDelta acc) i = mergeRun (lookupE acc i) (deltasFor i ds) := by
  induction ds generalizing acc with
  | nil => rfl
  | cons d ds ih =>
      show lookupE (ds.foldl applyDelta (applyDelta acc d)) i = _
      rw [ih]
      by_cases h : d.index.getD 0 = i
      · have hfil : deltasFor i (d :: ds) = d :: deltasFor i ds := by
          simp [deltasFor, List.filter_cons, h]
        rw [hfil, applyDelta_lookup, if_pos h]
        rfl
      · have hfil : deltasFor i (d :: ds) = deltasFor i ds := by
          simp [deltasFor, List.filter_cons, h]
        rw [hfil, applyDelta_lookup, if_neg h]

/-- Closed form of a merge run started from an existing entry. -/
theorem mergeRun_some (l : List ToolCallDelta) (e : ToolCallEntry) :
    mergeRun (some e) l =
      some ⟨lastSome e.id (l.map ToolCallDelta.id),
            lastSome e.ty (l.map ToolCallDelta.ty),
            lastSome e.name (l.map ToolCallDelta.fname),
            e.arguments ++ concatFragments (l.filterMap ToolCallDelta.args)⟩ := by
  induction l generalizing e with
  | nil =>
      simp only [mergeRun, List.foldl_nil, List.map_nil, List.filterMap_nil,
        concatFragments, List.foldr_nil, lastSome, strAppend_empty]
  | cons d l ih =>
      show mergeRun (some (mergeDelta e d)) l = _
      rw [ih]
      cases hA : d.args with
      | none =>
          have h1 : List.filterMap ToolCallDelta.args (d :: l)
              = List.filterMap ToolCallDelta.args l := by
            simp [List.filterMap_cons, hA]
          simp [mergeDelta, hA, h1, lastSome, strAppend_empty]
      | some a =>
          have h1 : List.filterMap ToolCallDelta.args (d :: l)
              = a :: List.filterMap ToolCallDelta.args l := by
            simp [List.filterMap_cons, hA]
          simp [mergeDelta, hA, h1, lastSome, concatFragments, strAppend_assoc]

/-- Claim C8 (amended): for every stream of tool-call deltas and call
index, the accumulator's entry exists iff some delta addressed the
index; its `arguments` is the concatenation, in arrival order, of every
argument fragment seen for that index; its `id`, `type` and
`function.name` hold the value of the **last** delta that carried the
field (each delta carrying a field overwrites it — they are not frozen
at first sight), defaulting to `""` / `"function"` / `""`. -/
theorem toolCallAccumulator_entry (ds : List ToolCallDelta) (i : Nat) :
    lookupE (accumulate ds) i =
      match deltasFor i ds with
      | [] => none
      | d :: l =>
          some ⟨lastSome "" ((d :: l).map ToolCallDelta.id),
                lastSome "function" ((d :: l).map ToolCallDelta.ty),
                lastSome "" ((d :: l).map ToolCallDelta.fname),
                concatFragments ((d :: l).filterMap ToolCallDelta.args)⟩ := by
  rw [show accumulate ds = ds.foldl applyDelta [] from rfl, foldl_applyDelta_lookup]
  cases hl : deltasFor i ds with
  | nil => rfl
  | cons d l =>
      show mergeRun (some (mergeDelta (initEntry d) d)) l = _
      rw [mergeRun_some]
      have hid : (mergeDelta (initEntry d) d).id = d.id.getD "" := by
        cases hI : d.id <;> simp [mergeDelta, initEntry, hI]
      have hty : (mergeDelta (initEntry d) d).ty = d.ty.getD "function" := by
        cases hT : d.ty <;> simp [mergeDelta, initEntry, hT]
      have hnm : (mergeDelta (initEntry d) d).name = d.fname.getD "" := rfl
      have harg : (mergeDelta (initEntry d) d).arguments = d.args.getD "" := by
        cases hA : d.args <;> simp [mergeDelta, initEntry, hA]
      rw [hid, hty, hnm, harg]
      cases hA : d.args with
      | none =>
          have h1 : List.filterMap ToolCallDelta.args (d :: l)
              = List.filterMap ToolCallDelta.args l := by
            simp [List.filterMap_cons, hA]
          simp [hA, h1, lastSome]
      | some a =>
          have h1 : List.filterMap ToolCallDelta.args (d :: l)
              = a :: List.filterMap ToolCallDelta.args l := by
            simp [List.filterMap_cons, hA]
          simp [hA, h1, lastSome, concatFragments]

/-- Counterexample for C8 as stated: a second delta for index 0 carrying
a different `id` overwrites the id set on first sight (and the argument
fragments still concatenate in order). -/
theorem toolCallAccumulator_overwrite_counterexample :
    (lookupE (accumulate
        [⟨some 0, some "a", none, none, some "\x7b\"a\":"⟩,
         ⟨some 0, some "b", none, none, some "1\x7d"⟩]) 0).map ToolCallEntry.id
      = some "b"
    ∧ ¬ (lookupE (accumulate
        [⟨some 0, some "a", none, none, some "\x7b\"a\":"⟩,
         ⟨some 0, some "b", none, none, some "1\x7d"⟩]) 0).map ToolCallEntry.id
      = some "a"
    ∧ (lookupE (accumulate
        [⟨some 0, some "a", none, none, some "\x7b\"a\":"⟩,
         ⟨some 0, some "b", none, none, some "1\x7d"⟩]) 0).map ToolCallEntry.arguments
      = some "\x7b\"a\":1\x7d" := by
  decide

/-! ### Claims C6, C9, C10 (Anthropic adapter failure behaviour) -/

/-- Any envelope produced by the access gate has the OpenAI error shape. -/
theorem verify_some_shape (cfg : ProxyConfig) (auth : Option String) (e : JVal)
    (h : verify_access_token cfg auth = some e) :
    isOpenAIErrorShape (.json e) = true := by
  unfold verify_access_token at h
  split at h
  · cases h
    simp [isOpenAIErrorShape, errObj, JVal.getKey, lookupStr]
  · split at h
    · cases h
      simp [isOpenAIErrorShape, errObj, JVal.getKey, lookupStr]
    · cases h

/-- Claim C6 (amended): on the Anthropic adapter every conversation
message whose content reduces to empty (or whitespace) is dropped from
the forwarded list, and when zero messages remain the gateway returns
HTTP 400 with an Anthropic `invalid_request_error` envelope whose
message is `"Request contained no valid messages"` (the spec's short
form "no valid messages" is not the literal wire text), with nothing
forwarded upstream. -/
theorem anthropic_drops_empty_messages (cfg : ProxyConfig) (rt : RuntimeEnv)
    (auth : Option String) (r : AnthropicRequest) (up : UpstreamOutcome)
    (hauth : verify_access_token cfg auth = none) :
    (anth_messages_list r
      = systemToMessages r.system ++
          r.messages.filterMap (fun m =>
            if strTrim (reduce_content m.content) = "" then none
            else some ⟨m.role.getD "user", reduce_content m.content⟩))
    ∧ (anth_messages_list r = [] →
        (anthropic_messages cfg rt auth (some r) up).status = 400
        ∧ (anthropic_messages cfg rt auth (some r) up).body
            = .json (anthErrObj "invalid_request_error" "Request contained no valid messages")
        ∧ envelopeErrType (anthropic_messages cfg rt auth (some r) up).body
            = some "invalid_request_error"
        ∧ (anthropic_messages cfg rt auth (some r) up).effects = []) := by
  refine ⟨rfl, fun hempty => ?_⟩
  have hres : anthropic_messages cfg rt auth (some r) up
      = ⟨400, .json (anthErrObj "invalid_request_error" "Request contained no valid messages"),
         []⟩ := by
    unfold anthropic_messages
    rw [hauth]
    dsimp only
    rw [hempty]
    rfl
  rw [hres]
  refine ⟨rfl, rfl, ?_, rfl⟩
  simp [envelopeErrType, anthErrObj, JVal.getKey, lookupStr]

/-- Witness for C6 (amended): a single message holding only a non-text
block is dropped and the request is rejected with the Anthropic
envelope. -/
theorem anthropic_drops_empty_messages_witness :
    (anthropic_messages { proxy_access_token := "s" } ⟨"", 0⟩ (some "Bearer s")
        (some { messages := [{ role := some "user",
                               content := some (.blocks [{ ty := some "image" }]) }] })
        (.netError "x")).status = 400
    ∧ (anthropic_messages { proxy_access_token := "s" } ⟨"", 0⟩ (some "Bearer s")
        (some { messages := [{ role := some "user",
                               content := some (.blocks [{ ty := some "image" }]) }] })
        (.netError "x")).body
        = .json (anthErrObj "invalid_request_error" "Request contained no valid messages")
    ∧ envelopeErrType (anthropic_messages { proxy_access_token := "s" } ⟨"", 0⟩
        (some "Bearer s")
        (some { messages := [{ role := some "user",
                               content := some (.blocks [{ ty := some "image" }]) }] })
        (.netError "x")).body = some "invalid_request_error"
    ∧ (anthropic_messages { proxy_access_token := "s" } ⟨"", 0⟩ (some "Bearer s")
        (some { messages := [{ role := some "user",
                               content := some (.blocks [{ ty := some "image" }]) }] })
        (.netError "x")).effects = [] :=
  (anthropic_drops_empty_messages { proxy_access_token := "s" } ⟨"", 0⟩ (some "Bearer s")
      { messages := [{ role := some "user",
                       content := some (.blocks [{ ty := some "image" }]) }] }
      (.netError "x") rfl).2 rfl

/-- Counterexample for C6 as stated: the wire message is
`"Request contained no valid messages"`, not the claimed exact text
`"no valid messages"`. -/
theorem anthropic_message_text_counterexample :
    envelopeErrMessage (anthropic_messages { proxy_access_token := "s" } ⟨"", 0⟩
        (some "Bearer s")
        (some { messages := [{ role := some "user",
                               content := some (.blocks [{ ty := some "image" }]) }] })
        (.netError "x")).body = some "Request contained no valid messages"
    ∧ ¬ envelopeErrMessage (anthropic_messages { proxy_access_token := "s" } ⟨"", 0⟩
        (some "Bearer s")
        (some { messages := [{ role := some "user",
                               content := some (.blocks [{ ty := some "image" }]) }] })
        (.netError "x")).body = some "no valid messages" := by
  decide

/-- Claim C9 (amended): failures the gateway itself generates on the
OpenAI routes use the OpenAI `{error:{...}}` shape (upstream non-2xx
bodies are passed through unchanged, whatever their shape); on
`/v1/messages` only the adapter's own failures — the no-valid-messages
400 and internal 500s — use the Anthropic `{type:"error", error:{...}}`
shape, while authentication failures and failures propagated from the
internal chat-completions call keep the OpenAI shape and its status. -/
theorem failure_envelope_shapes (cfg : ProxyConfig) (rt : RuntimeEnv)
    (auth : Option String) (r : AnthropicRequest) (req : ChatRequest)
    (oreq : Option ChatRequest) (m raw : String) (s : Nat) (up : UpstreamOutcome) :
    ((verify_access_token cfg auth).isSome = true →
        isOpenAIErrorShape (route_chat_completions cfg rt auth oreq up).body = true
      ∧ isOpenAIErrorShape (route_completions cfg rt auth oreq up).body = true
      ∧ isOpenAIErrorShape (anthropic_messages cfg rt auth (some r) up).body = true
      ∧ (anthropic_messages cfg rt auth (some r) up).status = 401)
    ∧ (falsyModel req.model = true ∨ falsyMessages req.messages = true →
        isOpenAIErrorShape (chat_completions cfg rt (some req) up).body = true
      ∧ (chat_completions cfg rt (some req) up).status = 400)
    ∧ (isOpenAIErrorShape (forward_chat cfg req (.netError m)).body = true
      ∧ (forward_chat cfg req (.netError m)).status = 500)
    ∧ (req.stream.getD false = false → okStatus s = true →
        isOpenAIErrorShape (forward_chat cfg req (.httpResponse s none raw)).body = true
      ∧ (forward_chat cfg req (.httpResponse s none raw)).status = 500)
    ∧ (verify_access_token cfg auth = none → anth_messages_list r = [] →
        isAnthropicErrorShape (anthropic_messages cfg rt auth (some r) up).body = true
      ∧ (anthropic_messages cfg rt auth (some r) up).status = 400)
    ∧ (verify_access_token cfg auth = none →
        isAnthropicErrorShape (anthropic_messages cfg rt auth none up).body = true
      ∧ (anthropic_messages cfg rt auth none up).status = 500)
    ∧ (verify_access_token cfg auth = none → ¬ anth_messages_list r = [] →
        (chat_completions cfg rt (some (anthropic_to_openai cfg r)) up).status ≠ 200 →
        (anthropic_messages cfg rt auth (some r) up).body
          = (chat_completions cfg rt (some (anthropic_to_openai cfg r)) up).body
      ∧ (anthropic_messages cfg rt auth (some r) up).status
          = (chat_completions cfg rt (some (anthropic_to_openai cfg r)) up).status) := by
  refine ⟨?_, ?_, ?_, ?_, ?_, ?_, ?_⟩
  · intro h
    obtain ⟨e, he⟩ := Option.isSome_iff_exists.mp h
    have hshape := verify_some_shape cfg auth e he
    obtain ⟨_, _, h3, h4, h5⟩ :=
      routes_unauth cfg rt auth "" oreq oreq (some r) up up up e he
    rw [h3, h4, h5]
    exact ⟨hshape, hshape, hshape, rfl⟩
  · intro h
    obtain ⟨hmod, hmsg, _⟩ := normalize_chat_request_model cfg req
    by_cases hm : falsyModel req.model = true
    · simp [chat_completions, hmod, hm, isOpenAIErrorShape, chatModelMissingBody, errObj,
            JVal.getKey, lookupStr]
    · have hms : falsyMessages req.messages = true := by
        rcases h with h | h
        · exact absurd h hm
        · exact h
      simp [chat_completions, hmod, hmsg, hm, hms, isOpenAIErrorShape,
            chatMessagesMissingBody, errObj, JVal.getKey, lookupStr]
  · constructor
    · simp [forward_chat, isOpenAIErrorShape, errObj, JVal.getKey, lookupStr]
    · rfl
  · intro hstream hok
    constructor
    · simp [forward_chat, hok, hstream, isOpenAIErrorShape, errObj, JVal.getKey, lookupStr]
    · simp [forward_chat, hok, hstream]
  · intro hauth hempty
    have hres : anthropic_messages cfg rt auth (some r) up
        = ⟨400, .json (anthErrObj "invalid_request_error" "Request contained no valid messages"),
           []⟩ := by
      unfold anthropic_messages
      rw [hauth]
      dsimp only
      rw [hempty]
      rfl
    rw [hres]
    exact ⟨by simp [isAnthropicErrorShape, anthErrObj, JVal.getKey, lookupStr], rfl⟩
  · intro hauth
    have hres : anthropic_messages cfg rt auth none up
        = ⟨500, .json (anthErrObj "api_error" "internal error"), []⟩ := by
      unfold anthropic_messages
      rw [hauth]
    rw [hres]
    exact ⟨by simp [isAnthropicErrorShape, anthErrObj, JVal.getKey, lookupStr], rfl⟩
  · intro hauth hne hst
    have hemp : ¬ ((anth_messages_list r).isEmpty = true) := by
      cases hl : anth_messages_list r with
      | nil => exact absurd hl hne
      | cons a l => simp
    have hres : anthropic_messages cfg rt auth (some r) up
        = ⟨(chat_completions cfg rt (some (anthropic_to_openai cfg r)) up).status,
           (chat_completions cfg rt (some (anthropic_to_openai cfg r)) up).body,
           (chat_completions cfg rt (some (anthropic_to_openai cfg r)) up).effects⟩ := by
      unfold anthropic_messages
      rw [hauth]
      dsimp only
      rw [if_neg hemp, if_pos hst]
    rw [hres]
    exact ⟨rfl, rfl⟩

/-- Witness for C9 (amended): the no-valid-messages rejection carries
the Anthropic envelope at a concrete request. -/
theorem failure_envelope_shapes_witness :
    isAnthropicErrorShape (anthropic_messages { proxy_access_token := "s" } ⟨"", 0⟩
        (some "Bearer s")
        (some { messages := [{ role := some "user", content := none }] })
        (.netError "x")).body = true
    ∧ (anthropic_messages { proxy_access_token := "s" } ⟨"", 0⟩ (some "Bearer s")
        (some { messages := [{ role := some "user", content := none }] })
        (.netError "x")).status = 400 :=
  (failure_envelope_shapes { proxy_access_token := "s" } ⟨"", 0⟩ (some "Bearer s")
      { messages := [{ role := some "user", content := none }] } {} none "x" "" 200
      (.netError "x")).2.2.2.2.1 rfl rfl

/-- Counterexample for C9 as stated: an auth failure on `/v1/messages`
answers 401 with the OpenAI-shaped envelope, not the Anthropic shape. -/
theorem messages_auth_failure_shape_counterexample :
    (anthropic_messages { proxy_access_token := "s" } ⟨"", 0⟩ (some "Bearer wrong")
        (some { messages := [{ role := some "user", content := some (.str "hi") }] })
        (.netError "x")).status = 401
    ∧ isAnthropicErrorShape (anthropic_messages { proxy_access_token := "s" } ⟨"", 0⟩
        (some "Bearer wrong")
        (some { messages := [{ role := some "user", content := some (.str "hi") }] })
        (.netError "x")).body = false
    ∧ isOpenAIErrorShape (anthropic_messages { proxy_access_token := "s" } ⟨"", 0⟩
        (some "Bearer wrong")
        (some { messages := [{ role := some "user", content := some (.str "hi") }] })
        (.netError "x")).body = true := by
  decide

/-- Claim C10 (amended): a `/v1/messages` request that omits the `model`
key is never rejected for a missing model — the adapter substitutes the
configured default and applies the alias mapping, so the forwarded model
is non-falsy whenever the mapped default is non-empty; a request
carrying an explicitly empty `model` value, however, still reaches the
chat-completions missing-model error (the key is present, so the
default is not substituted). -/
theorem messages_model_defaulting (cfg : ProxyConfig) (r : AnthropicRequest) :
    (r.model = none →
        (anthropic_to_openai cfg r).model = some (map_model_name cfg cfg.default_model)
      ∧ (map_model_name cfg cfg.default_model ≠ "" →
          falsyModel (anthropic_to_openai cfg r).model = false))
    ∧ (∀ m, r.model = some m →
        (anthropic_to_openai cfg r).model = some (map_model_name cfg m)) := by
  constructor
  · intro h
    refine ⟨by simp [anthropic_to_openai, h], fun hne => ?_⟩
    simp [anthropic_to_openai, h, falsyModel, hne]
  · intro m h
    simp [anthropic_to_openai, h]

/-- Witness for C10 (amended) at a concrete config with a non-empty
default model. -/
theorem messages_model_defaulting_witness :
    (anthropic_to_openai { proxy_access_token := "s" } {}).model
        = some (map_model_name { proxy_access_token := "s" } "gpt-4")
    ∧ falsyModel (anthropic_to_openai { proxy_access_token := "s" } {}).model = false :=
  ⟨((messages_model_defaulting { proxy_access_token := "s" } {}).1 rfl).1,
   ((messages_model_defaulting { proxy_access_token := "s" } {}).1 rfl).2 (by decide)⟩

/-- Counterexample for C10 as stated: with a non-empty configured
default model, a `/v1/messages` request whose `model` key is present but
empty still reaches the chat-completions missing-model 400. -/
theorem messages_empty_model_counterexample :
    (anthropic_messages { proxy_access_token := "s" } ⟨"", 0⟩ (some "Bearer s")
        (some { model := some "",
                messages := [{ role := some "user", content := some (.str "hi") }] })
        (.netError "x")).status = 400
    ∧ envelopeErrMessage (anthropic_messages { proxy_access_token := "s" } ⟨"", 0⟩
        (some "Bearer s")
        (some { model := some "",
                messages := [{ role := some "user", content := some (.str "hi") }] })
        (.netError "x")).body = some "you must provide a model parameter"
    ∧ ¬ ({ proxy_access_token := "s" } : ProxyConfig).default_model = "" := by
  decide

end LlmProxy
